import Mathlib

/-!
Verification of the wonda repository's export/verify scripts
(`scripts/export_gtr_t5_to_onnx.py` and `scripts/verify_onnx_export.py`)
against its natural-language specification.

Numeric values are embedded as rationals (`ℚ`): the scripts' arithmetic
(masked sums, clamped division, threshold comparison) is algebraic and the
claims are about its exact algebraic behaviour.  Python exceptions are
embedded as `Except String`: a `.error` value is an uncaught exception
propagating out of the enclosing code.
-/

namespace Wonda

/-- Embeds the clamp floor `1e-9` of
`torch.clamp(input_mask_expanded.sum(1), min=1e-9)` in `mean_pooling`
(scripts/verify_onnx_export.py, line 17). -/
def eps : ℚ := 1 / 1000000000

/-- Embeds `mean_pooling(model_output, attention_mask)` of
scripts/verify_onnx_export.py (lines 13-17) for a single sequence
(the scripts always run with batch size 1).

`token_embeddings` is `model_output[0]`, a sequence of per-token hidden
vectors; `attention_mask` is the mask cast to float by `.float()`;
`D` is the trailing dimension of the tensor shape `(L, D)` (part of the
tensor's static shape in torch, carried explicitly here).  Component `d`
of the result is
`sum_t token_embeddings[t][d] * mask[t] / max(sum_t mask[t], 1e-9)`,
which is exactly
`torch.sum(token_embeddings * input_mask_expanded, 1) / torch.clamp(input_mask_expanded.sum(1), min=1e-9)`:
the expanded mask has `mask[t]` at every column of row `t`, so its sum over
the sequence axis is the same `sum_t mask[t]` for every component `d`. -/
def mean_pooling (token_embeddings : List (List ℚ)) (attention_mask : List ℚ)
    (D : ℕ) : List ℚ :=
  (List.range D).map (fun d =>
    (List.zipWith (fun row m => row.getD d 0 * m) token_embeddings attention_mask).sum
      / max attention_mask.sum eps)

/-- Embeds the fixed comparison threshold of
`if cosine_sim > 0.999:` (scripts/verify_onnx_export.py, line 82). -/
def cosine_threshold : ℚ := 999 / 1000

/-- Embeds the per-sentence verdict of scripts/verify_onnx_export.py
(lines 82-86): `PASS` (`true`) exactly when `cosine_sim > 0.999`,
otherwise `FAIL` (`false`, and the loop sets `all_match = False`). -/
def sentencePass (cosine_sim : ℚ) : Bool :=
  decide (cosine_threshold < cosine_sim)

/-- Embeds `test_sentences` of scripts/verify_onnx_export.py (lines 37-42),
the fixed ProbeSet. -/
def test_sentences : List String :=
  ["Hello, world!",
   "The quick brown fox jumps over the lazy dog.",
   "My mother was a sensitive but loving person.",
   "Artificial intelligence is transforming technology."]

/-- Embeds the try/except around the artifact-graph call in
scripts/verify_onnx_export.py (lines 56-65).  `invoke b` is the call
`onnx_model(**encoded)`, where `b` records whether the minimal dummy
auxiliary decoder input `decoder_input_ids = torch.zeros((1, 1))` has been
added to `encoded`; a `.error` value is a raised Python exception.  The
primary call (`invoke false`) is guarded by `try`; on failure the script
prints the error and retries exactly once with the dummy decoder input
(`invoke true`).  That retry sits inside the `except` block with no guard
of its own, so its exception propagates out unchanged. -/
def callOnnxModel {α : Type} (invoke : Bool → Except String α) :
    Except String α :=
  match invoke false with
  | .ok out => .ok out
  | .error _ => invoke true

/-- Embeds the per-sentence loop of `verify_onnx_export`
(scripts/verify_onnx_export.py, lines 47-86).  One entry of `invokes` per
probe sentence: that sentence's artifact-graph call (with or without the
dummy decoder input).  `simOf` is the pure post-processing of a successful
model output into the cosine similarity against the original model's
embedding (mean pooling, squeeze, numpy dot over norms).  The `all_match`
accumulator is initialised to `True` by the caller; a FAIL verdict sets it
to `False`; an exception escaping `callOnnxModel` aborts the loop, leaving
the remaining probe sentences unprocessed. -/
def verifyLoop {α : Type} (simOf : α → ℚ) :
    List (Bool → Except String α) → Bool → Except String Bool
  | [], all_match => .ok all_match
  | invoke :: rest, all_match =>
    match callOnnxModel invoke with
    | .error e => .error e
    | .ok out =>
      verifyLoop simOf rest
        (if cosine_threshold < simOf out then all_match else false)

/-- Embeds `verify_onnx_export(onnx_dir)` of scripts/verify_onnx_export.py
(lines 19-94).  `dirExists` is `onnx_path.exists()`: when it is `false` the
function prints an error message and returns `False` at once — no model is
loaded and no probe sentence is touched, so the `invokes` and `simOf`
arguments are unused on that path.  Otherwise it runs the probe loop with
`all_match = True` and returns the final `all_match`. -/
def verify_onnx_export {α : Type} (dirExists : Bool)
    (invokes : List (Bool → Except String α)) (simOf : α → ℚ) :
    Except String Bool :=
  if dirExists then verifyLoop simOf invokes true else .ok false

/-- Embeds the `__main__` block `exit(0 if success else 1)` of
scripts/verify_onnx_export.py (lines 96-98).  An uncaught exception
(`.error`) never reaches the `exit` call: the interpreter prints a
traceback and exits with status 1. -/
def mainExit : Except String Bool → ℕ
  | .ok success => if success then 0 else 1
  | .error _ => 1

/-- The Verifier run in which the artifact directory exists and every probe
sentence's primary graph invocation succeeds, yielding the cosine
similarities listed by `sims` (one per probe sentence, in order). -/
def verifyRunWithSims (sims : List ℚ) : Except String Bool :=
  verify_onnx_export true (sims.map (fun s => fun _ => Except.ok s)) id

/-- JSON values occurring in the exporter's metadata dictionary. -/
inductive JsonVal : Type
  | str (s : String)
  | int (n : ℤ)
  | bool (b : Bool)
  deriving DecidableEq

/-- Embeds the `metadata` dictionary that `export_to_onnx` serialises to
`metadata.json` (scripts/export_gtr_t5_to_onnx.py, lines 62-74), with the
keys in insertion order. -/
def metadata : List (String × JsonVal) :=
  [("model_name", .str "sentence-transformers/gtr-t5-base"),
   ("version", .str "1.0.0"),
   ("dimensions", .int 768),
   ("max_tokens", .int 512),
   ("format", .str "onnx"),
   ("description", .str "GTR-T5-Base embedding model for vec2text compatibility"),
   ("vec2text_compatible", .bool true)]

/-- Embeds the per-sentence similarity computation of the verification run
(scripts/verify_onnx_export.py, lines 47-78) as a function of the run's
deterministic collaborators: `origEmbed` is
`original_model.encode(sentence)`; `onnxHidden` and `maskOf` are the
exported graph's per-token hidden states and the tokenizer's attention mask
for the sentence; `cos` is the numpy cosine computation
`np.dot(a, b) / (np.linalg.norm(a) * np.linalg.norm(b))`, kept abstract
because its square roots are irrational — the determinism claim needs only
that it is a fixed function of its two arguments.  The trace lists the
cosine similarity computed for each probe sentence, in order. -/
def similarityTrace (origEmbed : String → List ℚ)
    (onnxHidden : String → List (List ℚ)) (maskOf : String → List ℚ)
    (D : ℕ) (cos : List ℚ → List ℚ → ℚ) (sentences : List String) :
    List ℚ :=
  sentences.map
    (fun s => cos (origEmbed s) (mean_pooling (onnxHidden s) (maskOf s) D))

/-- An artifact-graph invocation that raises on both the primary call and
the dummy-decoder retry. -/
def failingInvoke : Bool → Except String ℚ :=
  fun _ => Except.error "invoke failed"

/-- An artifact-graph invocation that succeeds at once with similarity 1. -/
def passingInvoke : Bool → Except String ℚ :=
  fun _ => Except.ok 1

/-! Helper lemmas about `mean_pooling`. -/

/-- Multiplying each token's component by an all-ones mask leaves it
unchanged. -/
lemma zipWith_getD_replicate_one (l : List (List ℚ)) (d : ℕ) :
    List.zipWith (fun row m => row.getD d 0 * m) l
      (List.replicate l.length (1 : ℚ))
      = l.map (fun row => row.getD d 0) := by
  induction l with
  | nil => rfl
  | cons a t ih =>
    simp only [List.length_cons, List.replicate_succ, List.zipWith_cons_cons,
      mul_one, List.map_cons, ih]

/-- The masked numerator vanishes when every mask entry is zero. -/
lemma zipWith_getD_sum_zero (l : List (List ℚ)) (mask : List ℚ) (d : ℕ)
    (hzeros : ∀ m ∈ mask, m = 0) :
    (List.zipWith (fun row m => row.getD d 0 * m) l mask).sum = 0 := by
  induction l generalizing mask with
  | nil => simp
  | cons a t ih =>
    cases mask with
    | nil => simp
    | cons m ms =>
      have hm : m = 0 := hzeros m (by simp)
      have hms : ∀ x ∈ ms, x = 0 := fun x hx => hzeros x (by simp [hx])
      simp only [List.zipWith_cons_cons, List.sum_cons, hm, mul_zero,
        zero_add, ih ms hms]

/-- C2: with an all-ones attention mask of length L, `mean_pooling` returns
exactly the componentwise arithmetic mean of the L token vectors: component
d is the sum over the L positions of `hidden_states[t][d]`, divided by L. -/
theorem mean_pooling_all_ones_is_mean
    (hidden : List (List ℚ)) (mask : List ℚ) (L D : ℕ)
    (hhid : hidden.length = L) (hmask : mask.length = L)
    (hrows : ∀ row ∈ hidden, row.length = D)
    (hones : ∀ m ∈ mask, m = 1) :
    mean_pooling hidden mask D
      = (List.range D).map
          (fun d => (hidden.map (fun row => row.getD d 0)).sum / (L : ℚ)) := by
  subst hhid
  have hmrep : mask = List.replicate hidden.length (1 : ℚ) := by
    rw [← hmask]
    exact List.eq_replicate_length.mpr hones
  subst hmrep
  rcases Nat.eq_zero_or_pos hidden.length with h0 | hpos
  · rw [List.length_eq_zero.mp h0]
    simp [mean_pooling]
  · have hmax : max ((hidden.length : ℚ)) eps = (hidden.length : ℚ) := by
      apply max_eq_left
      have h1 : (1 : ℚ) ≤ (hidden.length : ℚ) := by exact_mod_cast hpos
      have h2 : eps ≤ 1 := by norm_num [eps]
      linarith
    have hsum : (List.replicate hidden.length (1 : ℚ)).sum
        = (hidden.length : ℚ) := by simp
    simp only [mean_pooling, zipWith_getD_replicate_one, hsum, hmax]

/-- C2 witness: the all-ones-mask theorem evaluated at the concrete input
`hidden_states = [[2, 4], [4, 8]]`, `mask = [1, 1]`, L = 2, D = 2, where
the mean is `[3, 6]`. -/
theorem mean_pooling_all_ones_is_mean_witness :
    mean_pooling [[(2 : ℚ), 4], [4, 8]] [1, 1] 2 = [(3 : ℚ), 6] := by
  have h := mean_pooling_all_ones_is_mean [[(2 : ℚ), 4], [4, 8]] [1, 1] 2 2
    rfl rfl (by decide) (by decide)
  rw [h]
  norm_num [List.range_succ]

/-- C3 counterexample: at `hidden_states = [[1]]`, `mask = [0]`, D = 1 the
claim predicts component 0 to be the unmasked sum over all token positions
divided by ε, i.e. `1 / 1e-9 = 10^9`, but `mean_pooling` returns `[0]`:
the numerator is the masked sum, which an all-zeros mask annihilates. -/
theorem mean_pooling_all_zeros_counterexample :
    mean_pooling [[(1 : ℚ)]] [0] 1 = [0] ∧
    (([[(1 : ℚ)]].map (fun row => row.getD 0 0)).sum) / eps = 1000000000 ∧
    ((0 : ℚ) = 1000000000) = False := by
  refine ⟨by norm_num [mean_pooling, eps], by norm_num [eps], by norm_num⟩

/-- C3 as amended: with an all-zeros attention mask the reducer returns
without a division fault and every component is finite — the masked
numerator is 0 and the clamped denominator is ε, so each component is
`0 / ε = 0` (not the unmasked sum divided by ε). -/
theorem mean_pooling_all_zeros_is_zero
    (hidden : List (List ℚ)) (mask : List ℚ) (D : ℕ)
    (hzeros : ∀ m ∈ mask, m = 0) :
    mean_pooling hidden mask D = List.replicate D (0 : ℚ) := by
  unfold mean_pooling
  rw [List.sum_eq_zero hzeros]
  have hz := fun d => zipWith_getD_sum_zero hidden mask d hzeros
  simp only [hz, zero_div]
  simp

/-- C3 witness: the amended theorem evaluated at `hidden_states = [[1]]`,
`mask = [0]`, D = 1, where the output is `[0]`. -/
theorem mean_pooling_all_zeros_is_zero_witness :
    mean_pooling [[(1 : ℚ)]] [0] 1 = List.replicate 1 (0 : ℚ) :=
  mean_pooling_all_zeros_is_zero [[(1 : ℚ)]] [0] 1 (by decide)

/-- C4: prepending or appending a token position whose mask entry is 0
leaves the pooled output unchanged, whatever the hidden vector `v` at that
position: the numerator gains `v[d] * 0 = 0` and the mask sum gains 0. -/
theorem mean_pooling_pad_invariant
    (hidden : List (List ℚ)) (mask : List ℚ) (v : List ℚ) (D : ℕ)
    (hlen : hidden.length = mask.length) :
    mean_pooling (v :: hidden) ((0 : ℚ) :: mask) D
        = mean_pooling hidden mask D ∧
    mean_pooling (hidden ++ [v]) (mask ++ [(0 : ℚ)]) D
        = mean_pooling hidden mask D := by
  constructor
  · simp [mean_pooling]
  · unfold mean_pooling
    apply List.map_congr_left
    intro d _
    rw [List.zipWith_append _ _ _ _ _ hlen]
    simp

/-- C4 witness: the padding-invariance theorem evaluated at
`hidden_states = [[2]]`, `mask = [1]`, padding vector `v = [7]`, D = 1. -/
theorem mean_pooling_pad_invariant_witness :
    mean_pooling [[(7 : ℚ)], [2]] [0, 1] 1 = mean_pooling [[(2 : ℚ)]] [1] 1 ∧
    mean_pooling [[(2 : ℚ)], [7]] [1, 0] 1 = mean_pooling [[(2 : ℚ)]] [1] 1 :=
  mean_pooling_pad_invariant [[(2 : ℚ)]] [1] [7] 1 rfl

/-- C8: for any sequence length L, pooled output has exactly D components:
the dimensionality of the sentence embedding does not depend on L. -/
theorem mean_pooling_output_dimension
    (hidden : List (List ℚ)) (mask : List ℚ) (L D : ℕ)
    (hhid : hidden.length = L) (hmask : mask.length = L)
    (hrows : ∀ row ∈ hidden, row.length = D) :
    (mean_pooling hidden mask D).length = D := by
  simp [mean_pooling]

/-- C8 witness: the output-dimension theorem evaluated at two different
sequence lengths (L = 1 and L = 3) with D = 2: both outputs have length 2. -/
theorem mean_pooling_output_dimension_witness :
    (mean_pooling [[(1 : ℚ), 2]] [1] 2).length = 2 ∧
    (mean_pooling [[(1 : ℚ), 2], [3, 4], [5, 6]] [1, 1, 0] 2).length = 2 :=
  ⟨mean_pooling_output_dimension [[(1 : ℚ), 2]] [1] 1 2 rfl rfl (by decide),
   mean_pooling_output_dimension [[(1 : ℚ), 2], [3, 4], [5, 6]] [1, 1, 0] 3 2
     rfl rfl (by decide)⟩

/-! Helper lemmas about the verification loop. -/

/-- When every probe invocation succeeds with the listed similarity, the
loop returns the fold of the `all_match` update over the similarities. -/
lemma verifyLoop_ok_sims (sims : List ℚ) (acc : Bool) :
    verifyLoop id (sims.map (fun s => fun _ => Except.ok s)) acc
      = Except.ok (sims.foldl
          (fun a s => if cosine_threshold < s then a else false) acc) := by
  induction sims generalizing acc with
  | nil => rfl
  | cons s rest ih =>
    simp only [List.map_cons, List.foldl_cons, verifyLoop, callOnnxModel,
      id_eq, ih]

/-- The `all_match` fold computes the conjunction of the per-sentence
verdicts. -/
lemma foldl_all_match (sims : List ℚ) (acc : Bool) :
    sims.foldl (fun a s => if cosine_threshold < s then a else false) acc
      = (acc && sims.all sentencePass) := by
  induction sims generalizing acc with
  | nil => simp
  | cons s rest ih =>
    simp only [List.foldl_cons, List.all_cons, ih]
    by_cases h : cosine_threshold < s
    · simp [sentencePass, h]
    · simp [sentencePass, h]

/-- C1: per-sentence verdict is PASS exactly when the cosine similarity
exceeds 0.999; the run result is overall PASS exactly when every probe
sentence passes; and the process exit status is 0 exactly on overall PASS
and 1 otherwise. -/
theorem verifier_verdicts_and_exit_status (sims : List ℚ) :
    (∀ s ∈ sims, (sentencePass s = true ↔ cosine_threshold < s)) ∧
    (verifyRunWithSims sims = Except.ok true ↔
        ∀ s ∈ sims, sentencePass s = true) ∧
    (mainExit (verifyRunWithSims sims) = 0 ↔
        verifyRunWithSims sims = Except.ok true) ∧
    (mainExit (verifyRunWithSims sims) = 1 ↔
        ¬ verifyRunWithSims sims = Except.ok true) := by
  have hrun : verifyRunWithSims sims = Except.ok (sims.all sentencePass) := by
    unfold verifyRunWithSims verify_onnx_export
    rw [if_pos rfl, verifyLoop_ok_sims, foldl_all_match, Bool.true_and]
  refine ⟨fun s _ => by simp [sentencePass], ?_, ?_, ?_⟩
  · rw [hrun]
    simp [List.all_eq_true]
  · rw [hrun]
    rcases Bool.eq_false_or_eq_true (sims.all sentencePass) with hb | hb <;>
      rw [hb] <;> simp [mainExit]
  · rw [hrun]
    rcases Bool.eq_false_or_eq_true (sims.all sentencePass) with hb | hb <;>
      rw [hb] <;> simp [mainExit]

/-- C1 witness: the verdict/exit theorem evaluated at the concrete
similarity list `[1, 998/1000]`, whose second probe fails. -/
theorem verifier_verdicts_and_exit_status_witness :
    (∀ s ∈ [(1 : ℚ), 998/1000], (sentencePass s = true ↔
        cosine_threshold < s)) ∧
    (verifyRunWithSims [(1 : ℚ), 998/1000] = Except.ok true ↔
        ∀ s ∈ [(1 : ℚ), 998/1000], sentencePass s = true) ∧
    (mainExit (verifyRunWithSims [(1 : ℚ), 998/1000]) = 0 ↔
        verifyRunWithSims [(1 : ℚ), 998/1000] = Except.ok true) ∧
    (mainExit (verifyRunWithSims [(1 : ℚ), 998/1000]) = 1 ↔
        ¬ verifyRunWithSims [(1 : ℚ), 998/1000] = Except.ok true) :=
  verifier_verdicts_and_exit_status [(1 : ℚ), 998/1000]

/-- C5 counterexample: a run over two probe sentences in which the first
sentence's invocation fails on both the primary call and the dummy-decoder
retry.  The claim predicts a recorded FAIL and continuation to the second
sentence (hence a completed run returning `False`), but the run aborts with
the uncaught retry exception: the result is the propagated `.error`, not
`Except.ok false`. -/
theorem verifier_retry_failure_aborts :
    verify_onnx_export true [failingInvoke, passingInvoke] id
        = Except.error "invoke failed" ∧
    ¬ verify_onnx_export true [failingInvoke, passingInvoke] id
        = Except.ok false :=
  ⟨rfl, by simp [verify_onnx_export, verifyLoop, callOnnxModel,
      failingInvoke]⟩

/-- C5 as amended: on a primary invocation failure the Verifier retries
exactly once with the dummy decoder input; if the retry succeeds the loop
continues to the remaining sentences with the retry's similarity, but if
the retry also fails its exception propagates uncaught and the whole run
aborts — the remaining probe sentences are never processed. -/
theorem verifier_retry_once_then_propagate {α : Type}
    (invoke : Bool → Except String α)
    (rest : List (Bool → Except String α)) (simOf : α → ℚ)
    (all_match : Bool) (e : String)
    (hfail : invoke false = Except.error e) :
    (∀ out, invoke true = Except.ok out →
        verifyLoop simOf (invoke :: rest) all_match
          = verifyLoop simOf rest
              (if cosine_threshold < simOf out then all_match else false)) ∧
    (∀ e2, invoke true = Except.error e2 →
        verifyLoop simOf (invoke :: rest) all_match = Except.error e2) := by
  constructor <;> intro x hx <;>
    simp only [verifyLoop, callOnnxModel, hfail, hx]

/-- C5 witness: the amended theorem applied to an invocation whose primary
call and retry both raise; the singleton run aborts with the retry error. -/
theorem verifier_retry_once_then_propagate_witness :
    verifyLoop id [failingInvoke] true = Except.error "invoke failed" :=
  (verifier_retry_once_then_propagate failingInvoke [] id true
      "invoke failed" rfl).2 "invoke failed" rfl

/-- C6 counterexample: with a nonexistent artifact directory the Verifier
does not fail with any exception (there is no `ArtifactNotFoundError`
anywhere in the code): `verify_onnx_export` returns `False`, a normal
return value, even when a probe invocation that would raise is queued. -/
theorem verifier_missing_dir_no_exception :
    verify_onnx_export false [failingInvoke] id = Except.ok false ∧
    ¬ verify_onnx_export false [failingInvoke] id
        = Except.error "ArtifactNotFoundError" :=
  ⟨rfl, by simp [verify_onnx_export]⟩

/-- C6 as amended: for every nonexistent artifact-directory path the
Verifier prints an error message and returns `False` immediately — before
loading any model or computing any embeddings (the result does not depend
on the probe invocations at all) — rather than raising an
`ArtifactNotFoundError`; verification cannot proceed without an artifact. -/
theorem verifier_missing_dir_returns_false {α : Type}
    (invokes : List (Bool → Except String α)) (simOf : α → ℚ)
    (e : String) :
    verify_onnx_export false invokes simOf = Except.ok false ∧
    ¬ verify_onnx_export false invokes simOf = Except.error e :=
  ⟨rfl, by simp [verify_onnx_export]⟩

/-- C6 witness: the amended theorem evaluated with the raising probe
invocation queued and the error name the spec proposes. -/
theorem verifier_missing_dir_returns_false_witness :
    verify_onnx_export false [failingInvoke] id = Except.ok false ∧
    ¬ verify_onnx_export false [failingInvoke] id
        = Except.error "ArtifactNotFoundError" :=
  verifier_missing_dir_returns_false [failingInvoke] id
    "ArtifactNotFoundError"

/-- C10: for every nonexistent artifact-directory path the Verifier
returns `False` without raising, and the result is independent of the
probe invocations and similarity post-processing — no model output and no
embedding is consulted — so `__main__` exits with status 1 rather than
crashing. -/
theorem verifier_missing_dir_exits_one {α : Type}
    (invokes invokes2 : List (Bool → Except String α))
    (simOf simOf2 : α → ℚ) :
    verify_onnx_export false invokes simOf = Except.ok false ∧
    verify_onnx_export false invokes simOf
        = verify_onnx_export false invokes2 simOf2 ∧
    mainExit (verify_onnx_export false invokes simOf) = 1 :=
  ⟨rfl, rfl, rfl⟩

/-- C10 witness: the missing-directory theorem evaluated at two different
invocation lists (one of which would raise if consulted). -/
theorem verifier_missing_dir_exits_one_witness :
    verify_onnx_export false [failingInvoke] id = Except.ok false ∧
    verify_onnx_export false [failingInvoke] id
        = verify_onnx_export false [passingInvoke] id ∧
    mainExit (verify_onnx_export false [failingInvoke] id) = 1 :=
  verifier_missing_dir_exits_one [failingInvoke] [passingInvoke] id id

/-- C7: the exporter's metadata dictionary has exactly the keys
`model_name`, `version`, `dimensions`, `max_tokens`, `format`,
`description`, `vec2text_compatible`, in that order; the string-valued and
bool-valued fields have the stated types, and `dimensions = 768` and
`max_tokens = 512`. -/
theorem exporter_metadata_schema :
    metadata.map Prod.fst
      = ["model_name", "version", "dimensions", "max_tokens", "format",
         "description", "vec2text_compatible"] ∧
    metadata.lookup "model_name"
      = some (JsonVal.str "sentence-transformers/gtr-t5-base") ∧
    metadata.lookup "version" = some (JsonVal.str "1.0.0") ∧
    metadata.lookup "dimensions" = some (JsonVal.int 768) ∧
    metadata.lookup "max_tokens" = some (JsonVal.int 512) ∧
    metadata.lookup "format" = some (JsonVal.str "onnx") ∧
    metadata.lookup "description"
      = some (JsonVal.str
          "GTR-T5-Base embedding model for vec2text compatibility") ∧
    metadata.lookup "vec2text_compatible" = some (JsonVal.bool true) := by
  refine ⟨rfl, ?_, ?_, ?_, ?_, ?_, ?_, ?_⟩ <;> rfl

/-- C9: two verification runs over the same probe sentences whose
collaborators — the reference provider's `encode`, the artifact graph's
hidden states, the tokenizer's attention mask and the cosine computation —
are deterministic (agree as functions of their inputs) produce identical
cosine similarities for every probe sentence. -/
theorem verifier_similarity_determinism
    (orig1 orig2 : String → List ℚ)
    (hid1 hid2 : String → List (List ℚ))
    (mask1 mask2 : String → List ℚ) (D : ℕ)
    (cos1 cos2 : List ℚ → List ℚ → ℚ) (sentences : List String)
    (horig : ∀ s, orig1 s = orig2 s) (hhid : ∀ s, hid1 s = hid2 s)
    (hmask : ∀ s, mask1 s = mask2 s) (hcos : ∀ u v, cos1 u v = cos2 u v) :
    similarityTrace orig1 hid1 mask1 D cos1 sentences
      = similarityTrace orig2 hid2 mask2 D cos2 sentences := by
  unfold similarityTrace
  apply List.map_congr_left
  intro s _
  rw [horig s, hhid s, hmask s, hcos]

/-- C9 witness: the determinism theorem applied over the script's own four
probe sentences, with concrete constant collaborators shared by the two
runs. -/
theorem verifier_similarity_determinism_witness :
    similarityTrace (fun _ => [(1 : ℚ)]) (fun _ => [[(1 : ℚ)]])
        (fun _ => [(1 : ℚ)]) 1 (fun _ _ => (1 : ℚ)) test_sentences
      = similarityTrace (fun _ => [(1 : ℚ)]) (fun _ => [[(1 : ℚ)]])
          (fun _ => [(1 : ℚ)]) 1 (fun _ _ => (1 : ℚ)) test_sentences :=
  verifier_similarity_determinism _ _ _ _ _ _ 1 _ _ test_sentences
    (fun _ => rfl) (fun _ => rfl) (fun _ => rfl) (fun _ _ => rfl)

end Wonda
